import Mathlib

/-!
Verification development for the tarmac image-upload pipeline.

The Rust sources embedded here:
  * src/api/errors.rs   - the error enumeration `RobloxApiError`
  * src/api/mod.rs      - `CreatorType` parsing, `Creator`, `ImageData`,
                          credential resolution (`From<GlobalOptions>`), and the
                          dispatching `upload_asset` / `upload_asset_with_moderation_retry`
  * src/api/web.rs      - the cloud-API ("web") driver: multipart create POST,
                          a single status GET, serde JSON shapes, Debug impl
  * src/commands/upload_image.rs - the orchestrator (alpha bleed call site)

Machine integers (u64, u32, HTTP status codes) are modelled as Nat: every value
involved is non-negative and no arithmetic that could overflow is performed on
them. Response bodies are modelled as parsed JSON trees (the text layer and the
transport are collaborators outside the embedded core); serde derive semantics
for the concrete types involved are embedded field-by-field (fields looked up
by name, unknown fields ignored, missing field fails, unit enum variants read
from their name as a string).
-/

set_option autoImplicit false

namespace Tarmac

mutual

/-- A JSON value, as far as the embedded wire shapes need: null, booleans,
non-negative numbers, strings and objects. `JsonFields` is the (ordered) field
list of an object. -/
inductive Json where
  | null : Json
  | bool : Bool → Json
  | num : Nat → Json
  | str : String → Json
  | obj : JsonFields → Json

/-- Field list of a JSON object. -/
inductive JsonFields where
  | nil : JsonFields
  | cons : String → Json → JsonFields → JsonFields

end

/-- Field lookup by name (first occurrence), as serde does for derived
structs (unknown fields are ignored, a missing field is an error). -/
def JsonFields.find : JsonFields → String → Option Json
  | .nil, _ => none
  | .cons k v rest, key => if k = key then some v else rest.find key

/-- Embedding of the `RobloxApiError` enum of src/api/errors.rs. The `source`
payloads (serde and reqwest error values) carry no information the claims
observe and are dropped; the `body` strings are modelled as JSON trees. Note
that the enum has no variant for a missing credential. -/
inductive RobloxApiError where
  | ApiError (message : String)
  | BadRequestJson
  | BadResponseJson (body : Json)
  | ResponseError (status : Nat) (body : Json)
  | MissingCsrfToken
  | Http
  | Headers

/-- Embedding of `CreatorType` of src/api/mod.rs. -/
inductive CreatorType where
  | User : CreatorType
  | Group : CreatorType
deriving DecidableEq

/-- Embedding of the unit struct `CreatorError` of src/api/mod.rs. -/
structure CreatorError where
deriving DecidableEq

/-- Embedding of `impl FromStr for CreatorType` (src/api/mod.rs lines 35-47):
a literal match on the input string with arms "user", "User", "group",
"Group" and a catch-all error. -/
def creatorTypeFromStr (input : String) : Except CreatorError CreatorType :=
  if input = "user" then .ok .User
  else if input = "User" then .ok .User
  else if input = "group" then .ok .Group
  else if input = "Group" then .ok .Group
  else .error {}

/-- Embedding of the `Creator` struct of src/api/mod.rs. -/
structure Creator where
  creatorType : CreatorType
  creatorId : Nat
deriving DecidableEq

/-- Embedding of `ImageData` of src/api/mod.rs. -/
structure ImageData where
  name : String
  description : String
  creator : Creator
deriving DecidableEq

/-- Embedding of the `TargetType` enum of src/api/web.rs. -/
inductive TargetType where
  | Audio : TargetType
  | Decal : TargetType
  | ModelFromFbx : TargetType
deriving DecidableEq

/-- Embedding of `CreationContext` of src/api/web.rs. -/
structure CreationContext where
  targetType : TargetType
  assetName : String
  assetDescription : String
  assetId : Option Nat
  creator : Creator
deriving DecidableEq

/-- Embedding of `AssetUploadData` of src/api/web.rs. -/
structure AssetUploadData where
  creationContext : CreationContext
deriving DecidableEq

/-- Embedding of `impl From<ImageData> for AssetUploadData` (src/api/web.rs
lines 39-43): target type Decal, no asset id. -/
def assetUploadDataFrom (data : ImageData) : AssetUploadData :=
  { creationContext :=
    { targetType := .Decal
      assetName := data.name
      assetDescription := data.description
      assetId := none
      creator := data.creator } }

/-- Lowercase hex digit, as serde_json writes control-character escapes. -/
def hexDigit (n : Nat) : String :=
  if n = 0 then "0" else if n = 1 then "1" else if n = 2 then "2"
  else if n = 3 then "3" else if n = 4 then "4" else if n = 5 then "5"
  else if n = 6 then "6" else if n = 7 then "7" else if n = 8 then "8"
  else if n = 9 then "9" else if n = 10 then "a" else if n = 11 then "b"
  else if n = 12 then "c" else if n = 13 then "d" else if n = 14 then "e"
  else "f"

/-- serde_json string escaping for one character: quote and backslash are
escaped, control characters use the short escapes \b \t \n \f \r or a
\u00XX escape, everything else passes through. -/
def jsonEscapeChar (c : Char) : String :=
  if c = '\"' then "\\\""
  else if c = '\\' then "\\\\"
  else if c.toNat = 8 then "\\b"
  else if c.toNat = 9 then "\\t"
  else if c.toNat = 10 then "\\n"
  else if c.toNat = 12 then "\\f"
  else if c.toNat = 13 then "\\r"
  else if c.toNat < 32 then "\\u00" ++ hexDigit (c.toNat / 16) ++ hexDigit (c.toNat % 16)
  else String.singleton c

/-- serde_json escaping of a whole string. -/
def jsonEscape (s : String) : String :=
  String.join (s.toList.map jsonEscapeChar)

/-- A JSON string literal: quotes around the escaped text. -/
def jsonQuote (s : String) : String :=
  "\"" ++ jsonEscape s ++ "\""

/-- serde serialization of a `CreatorType` value (externally tagged unit
variant: just the variant name as a string). -/
def creatorTypeName : CreatorType → String
  | .User => "User"
  | .Group => "Group"

/-- serde serialization of a `TargetType` value. -/
def targetTypeName : TargetType → String
  | .Audio => "Audio"
  | .Decal => "Decal"
  | .ModelFromFbx => "ModelFromFbx"

/-- serde_json::to_string of a `Creator` (src/api/mod.rs): fields in
declaration order, camelCase names as written in the source. -/
def serializeCreator (c : Creator) : String :=
  "\x7b\"creatorType\":" ++ jsonQuote (creatorTypeName c.creatorType)
    ++ ",\"creatorId\":" ++ toString c.creatorId ++ "\x7d"

/-- serde_json::to_string of an `AssetUploadData` (src/api/web.rs): the
document built by the derived Serialize impls, fields in declaration order.
This is the exact text placed in the multipart `request` part by
`upload_asset_raw` (src/api/web.rs lines 134-141). -/
def serializeAssetUploadData (d : AssetUploadData) : String :=
  "\x7b\"creationContext\":\x7b\"targetType\":"
    ++ jsonQuote (targetTypeName d.creationContext.targetType)
    ++ ",\"assetName\":" ++ jsonQuote d.creationContext.assetName
    ++ ",\"assetDescription\":" ++ jsonQuote d.creationContext.assetDescription
    ++ ",\"assetId\":"
    ++ (match d.creationContext.assetId with
        | none => "null"
        | some n => toString n)
    ++ ",\"creator\":" ++ serializeCreator d.creationContext.creator
    ++ "\x7d\x7d"

/-- The `request` part as the specification words it (for comparison with the
source serializer): a document with top-level assetType, displayName and
description, and a creationContext holding only the creator keyed by
userId or groupId. -/
def specRequestPart (d : ImageData) : String :=
  "\x7b\"assetType\":\"Decal\",\"displayName\":" ++ jsonQuote d.name
    ++ ",\"description\":" ++ jsonQuote d.description
    ++ ",\"creationContext\":\x7b\"creator\":\x7b"
    ++ (match d.creator.creatorType with
        | .User => "\"userId\":"
        | .Group => "\"groupId\":")
    ++ toString d.creator.creatorId
    ++ "\x7d\x7d\x7d"

mutual

/-- Rendering of a JSON tree to its compact serde_json text: objects as
comma-separated quoted keys and rendered values between braces. -/
def renderJson : Json → String
  | .null => "null"
  | .bool true => "true"
  | .bool false => "false"
  | .num n => toString n
  | .str s => jsonQuote s
  | .obj fs => "\x7b" ++ renderFields fs ++ "\x7d"

/-- Rendering of an object's field list, comma separated. -/
def renderFields : JsonFields → String
  | .nil => ""
  | .cons k v .nil => jsonQuote k ++ ":" ++ renderJson v
  | .cons k v (.cons k2 v2 rest) =>
      jsonQuote k ++ ":" ++ renderJson v ++ ","
        ++ renderFields (.cons k2 v2 rest)

end

/-- The JSON document the derived Serialize impls of src/api/web.rs and
src/api/mod.rs produce for an `AssetUploadData`, as a tree: a single
creationContext object holding targetType, assetName, assetDescription,
assetId and the creator object with creatorType and creatorId, in
declaration order. -/
def assetUploadDoc (d : AssetUploadData) : Json :=
  .obj (.cons "creationContext" (.obj (
    .cons "targetType" (.str (targetTypeName d.creationContext.targetType)) (
    .cons "assetName" (.str d.creationContext.assetName) (
    .cons "assetDescription" (.str d.creationContext.assetDescription) (
    .cons "assetId"
      (match d.creationContext.assetId with
       | none => .null
       | some n => .num n) (
    .cons "creator" (.obj (
      .cons "creatorType" (.str (creatorTypeName d.creationContext.creator.creatorType)) (
      .cons "creatorId" (.num d.creationContext.creator.creatorId) .nil)))
    .nil)))))) .nil)

/-- Embedding of `UploadResponse` of src/api/web.rs. -/
structure UploadResponse where
  asset_id : Nat
  asset_version_number : Nat
deriving DecidableEq

/-- Embedding of `RawUploadResponse` of src/api/web.rs: the create endpoint's
body, a single string field `path`. -/
structure RawUploadResponse where
  path : String
deriving DecidableEq

/-- Embedding of the `ResponseStatus` enum of src/api/web.rs: a single unit
variant `Success`; serde can deserialize it from no other value. -/
inductive ResponseStatus where
  | Success : ResponseStatus
deriving DecidableEq

/-- Embedding of `AssetInfo` of src/api/web.rs. -/
structure AssetInfo where
  status : ResponseStatus
  assetId : Nat
  assetVersionNumber : Nat
deriving DecidableEq

/-- Embedding of `RawStatusResponse` of src/api/web.rs: the status endpoint's
body, a string field `status` and an `AssetInfo` field `result`. -/
structure RawStatusResponse where
  status : String
  result : AssetInfo
deriving DecidableEq

/-- serde deserialization of a `String` field. -/
def Json.asStr : Json → Option String
  | .str s => some s
  | _ => none

/-- serde deserialization of an unsigned integer field. -/
def Json.asNum : Json → Option Nat
  | .num n => some n
  | _ => none

/-- serde deserialization of `ResponseStatus` (externally tagged unit variant):
only the string "Success" is accepted. -/
def parseResponseStatus (j : Json) : Option ResponseStatus :=
  match j with
  | .str s => if s = "Success" then some .Success else none
  | _ => none

/-- serde deserialization of `RawUploadResponse`: an object with a string
field `path`. -/
def parseRawUploadResponse (j : Json) : Option RawUploadResponse :=
  match j with
  | .obj fs => do
      let p ← fs.find "path"
      let s ← p.asStr
      pure { path := s }
  | _ => none

/-- serde deserialization of `AssetInfo`: an object with fields `status`
(the enum), `assetId` and `assetVersionNumber` (numbers). -/
def parseAssetInfo (j : Json) : Option AssetInfo :=
  match j with
  | .obj fs => do
      let st ← fs.find "status"
      let st ← parseResponseStatus st
      let aid ← fs.find "assetId"
      let aid ← aid.asNum
      let ver ← fs.find "assetVersionNumber"
      let ver ← ver.asNum
      pure { status := st, assetId := aid, assetVersionNumber := ver }
  | _ => none

/-- serde deserialization of `RawStatusResponse`: an object with a string
field `status` and an object field `result` parsed as `AssetInfo`. -/
def parseRawStatusResponse (j : Json) : Option RawStatusResponse :=
  match j with
  | .obj fs => do
      let st ← fs.find "status"
      let st ← st.asStr
      let r ← fs.find "result"
      let r ← parseAssetInfo r
      pure { status := st, result := r }
  | _ => none

/-- An HTTP response as the driver observes it: the status code and the body
(already parsed as JSON; a non-JSON body is outside the embedded shapes the
claims exercise). -/
structure HttpResponse where
  status : Nat
  body : Json

/-- The network environment the web driver runs against: the response to its
create POST and the response to its (single) status GET. -/
structure WebEnv where
  createResponse : HttpResponse
  statusResponse : HttpResponse

/-- Observable events of a driver run: outbound requests (the create POST
with its two multipart parts, fileContent and the serialized request
document) and sleeps. The web driver of src/api/web.rs never sleeps; the
event type carries sleeps so that the absence of any backoff is a statement,
not a modelling artifact. -/
inductive Event where
  | post (url : String) (fileContent : List Nat) (requestPart : String)
  | get (url : String)
  | sleep (ms : Nat)
  | sessionAttempt (attempt : Nat)

/-- Whether an event is a status GET. -/
def Event.isGet : Event → Bool
  | .get _ => true
  | _ => false

/-- Whether an event is a sleep. -/
def Event.isSleep : Event → Bool
  | .sleep _ => true
  | _ => false

/-- reqwest's `StatusCode::is_success`: 200..=299. -/
def isSuccessStatus (s : Nat) : Bool :=
  200 ≤ s && s ≤ 299

/-- reqwest's `HeaderValue::from_str` byte validity: every byte at least 32
and not 127, or a horizontal tab. -/
def isValidHeaderChar (c : Char) : Bool :=
  (32 ≤ c.toNat && c.toNat ≠ 127) || c.toNat = 9

/-- Validity of a whole header value, as `HeaderValue::from_str` checks it. -/
def isValidHeaderValue (s : String) : Bool :=
  s.toList.all isValidHeaderChar

/-- The API base URL of src/api/web.rs. -/
def API_BASE : String := "https://apis.roblox.com/assets/v1/"

/-- Embedding of `RobloxApiClient::upload_asset_raw` (src/api/web.rs lines
129-182), with the run's outbound events made explicit. Control flow follows
the source line by line: serialize the request part; build the multipart form;
validate the api key as a header value (`Headers` error on failure); POST to
API_BASE ++ "assets"; on a non-2xx create response fail `ResponseError` with
the create status and body; on a 2xx create response parse `RawUploadResponse`
(failing `BadResponseJson`); then issue one GET to API_BASE ++ path; on a 2xx
status response parse `RawStatusResponse` (failing `BadResponseJson`); on a
non-2xx status response fail `ResponseError` built - as in the source - from
`response.status()` (the CREATE response's status) and the status body. -/
def upload_asset_raw (env : WebEnv) (apiKey : String) (image : List Nat)
    (data : AssetUploadData) :
    Except RobloxApiError RawStatusResponse × List Event :=
  let requestData := serializeAssetUploadData data
  if isValidHeaderValue apiKey then
    let createUrl := API_BASE ++ "assets"
    let response := env.createResponse
    if isSuccessStatus response.status then
      match parseRawUploadResponse response.body with
      | some user_response =>
          let statusUrl := API_BASE ++ user_response.path
          let status_response := env.statusResponse
          if isSuccessStatus status_response.status then
            match parseRawStatusResponse status_response.body with
            | some r => (.ok r, [.post createUrl image requestData, .get statusUrl])
            | none => (.error (.BadResponseJson status_response.body),
                       [.post createUrl image requestData, .get statusUrl])
          else
            (.error (.ResponseError response.status status_response.body),
             [.post createUrl image requestData, .get statusUrl])
      | none => (.error (.BadResponseJson response.body),
                 [.post createUrl image requestData])
    else
      (.error (.ResponseError response.status response.body),
       [.post createUrl image requestData])
  else
    (.error .Headers, [])

/-- Embedding of `RobloxApiClient::upload_asset` (src/api/web.rs lines
101-125): run the raw upload, then match on the result's status. The source's
match has a `_` arm producing `ApiError("Fetching Upload Status failed")`,
but `ResponseStatus` has only the `Success` variant, so that arm is dead
code; the embedding's total match on the one variant is the same function. -/
def upload_asset (env : WebEnv) (apiKey : String) (image : List Nat)
    (data : AssetUploadData) :
    Except RobloxApiError UploadResponse × List Event :=
  match upload_asset_raw env apiKey image data with
  | (.ok raw, ev) =>
      match raw.result.status with
      | .Success =>
          (.ok { asset_id := raw.result.assetId
                 asset_version_number := raw.result.assetVersionNumber }, ev)
  | (.error e, ev) => (.error e, ev)

/-- Embedding of the web `RobloxApiClient` struct (src/api/web.rs lines
81-84); the reqwest client field carries no observable state and is dropped. -/
structure RobloxApiClient where
  api_key : String

/-- Embedding of `RobloxApiClient::new` (src/api/web.rs lines 93-98). -/
def RobloxApiClient.new (api_key : String) : RobloxApiClient :=
  { api_key := api_key }

/-- Embedding of `impl fmt::Debug for RobloxApiClient` (src/api/web.rs lines
86-90; src/roblox_web_api.rs lines 88-92 is the identical impl): the
formatter writes the constant text "RobloxApiClient" and reads no field. -/
def debugFmt (_client : RobloxApiClient) : String :=
  "RobloxApiClient"

/-- Modelled from the spec: src/api/cookie.rs (the SessionProtocol driver) is
declared by src/api/mod.rs but its file is not in the repository snapshot.
The outcome one upload attempt against the session endpoint can have, per
spec section 4.3.2: a returned asset id, a moderation verdict, or some other
failure. -/
inductive SessionOutcome where
  | success (assetId : Nat)
  | moderated
  | failure (e : RobloxApiError)

/-- Modelled from the spec: the session environment gives the outcome of the
i-th upload attempt (0-based). -/
def SessionEnv : Type :=
  Nat → SessionOutcome

/-- Modelled from the spec: the result of one attempt. A moderation verdict
surfaces as a failure; the plain upload operation does not retry it
("the plain upload operation does not retry moderation failures"). -/
def sessionAttemptResult : SessionOutcome → Except RobloxApiError Nat
  | .success id => .ok id
  | .moderated => .error (.ApiError "moderation")
  | .failure e => .error e

/-- Modelled from the spec: `upload_image` of the missing src/api/cookie.rs -
a single upload attempt, no moderation retry. -/
def cookieUploadImage (env : SessionEnv) : Except RobloxApiError Nat × List Event :=
  (sessionAttemptResult (env 0), [.sessionAttempt 0])

/-- Modelled from the spec: the moderation-retry loop of
`upload_image_with_moderation_retry` of the missing src/api/cookie.rs.
On a moderation verdict with retries remaining it sleeps 5 seconds and
retries; with none remaining it fails ApiError "moderation". Success and
non-moderation failures return immediately. -/
def cookieRetryLoop (env : SessionEnv) (attempt : Nat) (remaining : Nat) :
    Except RobloxApiError Nat × List Event :=
  match env attempt with
  | .success id => (.ok id, [.sessionAttempt attempt])
  | .failure e => (.error e, [.sessionAttempt attempt])
  | .moderated =>
      match remaining with
      | 0 => (.error (.ApiError "moderation"), [.sessionAttempt attempt])
      | r + 1 =>
          let rest := cookieRetryLoop env (attempt + 1) r
          (rest.1, .sessionAttempt attempt :: .sleep 5000 :: rest.2)

/-- Modelled from the spec: `upload_image_with_moderation_retry` retries "up
to 4 additional times" - 5 attempts in all. -/
def cookieUploadImageWithModerationRetry (env : SessionEnv) :
    Except RobloxApiError Nat × List Event :=
  cookieRetryLoop env 0 4

/-- Embedding of the cookie `RobloxApiClient` of the missing src/api/cookie.rs
as src/api/mod.rs uses it: a client holding the session token. -/
structure CookieApiClient where
  auth_token : String

/-- Embedding of the dispatching `RobloxApiClient` enum of src/api/mod.rs
(lines 15-18): one variant per protocol driver. -/
inductive ApiClient where
  | Web (c : RobloxApiClient)
  | Cookie (c : CookieApiClient)

/-- The combined network environment a dispatched upload runs against. -/
structure Env where
  web : WebEnv
  session : SessionEnv

/-- Embedding of `RobloxApiClient::upload_asset` of src/api/mod.rs (lines
81-92): dispatch on the credential variant; the Web arm converts the
metadata with `AssetUploadData::from` and returns the response's asset id,
the Cookie arm calls the session driver's plain `upload_image`. -/
def ApiClient.uploadAsset (env : Env) (self : ApiClient) (image : List Nat)
    (data : ImageData) :
    Except RobloxApiError Nat × List Event :=
  match self with
  | .Web c =>
      match upload_asset env.web c.api_key image (assetUploadDataFrom data) with
      | (.ok response, ev) => (.ok response.asset_id, ev)
      | (.error e, ev) => (.error e, ev)
  | .Cookie _ => cookieUploadImage env.session

/-- Embedding of `RobloxApiClient::upload_asset_with_moderation_retry` of
src/api/mod.rs (lines 94-107): the Web arm is the same code as the plain
upload (the source comment defers a web moderation-retry to unwritten
documentation), the Cookie arm calls `upload_image_with_moderation_retry`. -/
def ApiClient.uploadAssetWithModerationRetry (env : Env) (self : ApiClient)
    (image : List Nat) (data : ImageData) :
    Except RobloxApiError Nat × List Event :=
  match self with
  | .Web c =>
      match upload_asset env.web c.api_key image (assetUploadDataFrom data) with
      | (.ok response, ev) => (.ok response.asset_id, ev)
      | (.error e, ev) => (.error e, ev)
  | .Cookie _ => cookieUploadImageWithModerationRetry env.session

/-- Embedding of `GlobalOptions` as `From<GlobalOptions> for RobloxApiClient`
(src/api/mod.rs lines 61-78) consumes it: the optional API key and the
optional explicit cookie. (The options file itself is an out-of-scope CLI
collaborator; only these two fields are read by the resolver.) -/
structure GlobalOptions where
  api_key : Option String
  cookie : Option String

/-- Outcome of credential resolution: a constructed client, or a process
abort. `From<GlobalOptions>` cannot return an error value - on a missing
credential it calls `expect`, which panics with the given message. -/
inductive ResolveResult where
  | client (c : ApiClient)
  | aborted (msg : String)
deriving Nonempty

/-- Embedding of `impl From<GlobalOptions> for RobloxApiClient`
(src/api/mod.rs lines 61-78). `envCookie` stands for the external
`get_auth_cookie` collaborator (src/auth_cookie.rs, out of scope per the
spec): when the options hold an API key a Web client is built from it;
otherwise the explicit cookie, or failing that the discovered cookie, builds
a Cookie client; with neither, `.expect("no auth cookie found")` panics. -/
def resolveClient (options : GlobalOptions) (envCookie : Option String) :
    ResolveResult :=
  match options.api_key with
  | some api_key => .client (.Web (RobloxApiClient.new api_key))
  | none =>
      match options.cookie.orElse (fun _ => envCookie) with
      | some auth_token => .client (.Cookie { auth_token := auth_token })
      | none => .aborted "no auth cookie found"

/-- An RGBA pixel: four 8-bit channels (modelled as Nat; the transform moves
channel values around and never computes on them). -/
structure Rgba where
  r : Nat
  g : Nat
  b : Nat
  a : Nat
deriving DecidableEq

/-- An RGBA raster: width, height and the row-major pixel list. -/
structure Image where
  width : Nat
  height : Nat
  pixels : List Rgba
deriving DecidableEq

/-- Writing a source pixel's RGB over a target pixel: the target's alpha is
kept. -/
def writeRgb (p src : Rgba) : Rgba :=
  { r := src.r, g := src.g, b := src.b, a := p.a }

/-- Modelled from the spec: the 4-connected neighbors of the row-major index
`i` in a width-w, height-h raster. -/
def neighbors (w h i : Nat) : List Nat :=
  let x := i % w
  let y := i / w
  (if 0 < x then [i - 1] else [])
    ++ (if x + 1 < w then [i + 1] else [])
    ++ (if 0 < y then [i - w] else [])
    ++ (if y + 1 < h then [i + w] else [])

/-- Modelled from the spec (section 4.1, src/alpha_bleed.rs is not in the
repository snapshot): one neighbor step of the flood. The state is (pixels,
written flags, queue). A neighbor that exists, is not yet written and has
alpha = 0 gets the dequeued pixel's RGB, is flagged written and is enqueued;
any other neighbor leaves the state alone. -/
def processNeighbor (src : Rgba) (st : List Rgba × List Bool × List Nat)
    (n : Nat) : List Rgba × List Bool × List Nat :=
  match st.1[n]?, st.2.1[n]? with
  | some p, some false =>
      if p.a = 0 then
        (st.1.set n (writeRgb p src), st.2.1.set n true, st.2.2 ++ [n])
      else st
  | _, _ => st

/-- Modelled from the spec: the breadth-first flood. Dequeue an index, bleed
its RGB into its eligible 4-connected neighbors, and continue on the grown
queue. The fuel argument bounds the number of dequeues; each pixel is
enqueued at most once, so fuel equal to the pixel count runs the flood to
completion. -/
def bleedLoop (w h : Nat) : Nat → List Nat → List Rgba → List Bool → List Rgba
  | 0, _, px, _ => px
  | _ + 1, [], px, _ => px
  | fuel + 1, i :: rest, px, vis =>
      match px[i]? with
      | some src =>
          let st := (neighbors w h i).foldl (processNeighbor src) (px, vis, rest)
          bleedLoop w h fuel st.2.2 st.1 st.2.1
      | none => bleedLoop w h fuel rest px vis

/-- Modelled from the spec: the seed queue - every index whose pixel has
alpha > 0, in row-major order. -/
def seedQueue (px : List Rgba) : List Nat :=
  (List.range px.length).filter (fun i =>
    match px[i]? with
    | some p => p.a != 0
    | none => false)

/-- Modelled from the spec: the alpha-bleed transform called by
src/commands/upload_image.rs line 18 - flood the opaque pixels' RGB into the
fully transparent ones, in place, leaving dimensions and alpha alone. -/
def alpha_bleed (img : Image) : Image :=
  { img with
    pixels := bleedLoop img.width img.height img.pixels.length
      (seedQueue img.pixels) img.pixels
      (List.replicate img.pixels.length false) }

/-- The frame invariant the bleed maintains over the original pixel list:
same length, alpha preserved index by index, and every pixel with nonzero
alpha untouched. -/
def AgreesWith (orig px : List Rgba) : Prop :=
  px.length = orig.length ∧
  ∀ i : Nat,
    (px[i]?.map Rgba.a = orig[i]?.map Rgba.a) ∧
    (∀ p : Rgba, orig[i]? = some p → p.a ≠ 0 → px[i]? = some p)

/-! Shared concrete fixtures for the claims' concrete runs. -/

/-- A sample metadata record. -/
def sampleData : ImageData :=
  { name := "n", description := "d"
    creator := { creatorType := .User, creatorId := 1 } }

/-- A create-endpoint success body carrying an operation path. -/
def createOkBody : Json :=
  .obj (.cons "path" (.str "operations/op1") .nil)

/-- A poll body in the shape the specification describes, not yet done. -/
def pollNotDoneBody : Json :=
  .obj (.cons "done" (.bool false) .nil)

/-- A poll body in the shape the specification describes, done with a
success payload. -/
def pollDoneBody : Json :=
  .obj (.cons "done" (.bool true)
    (.cons "response"
      (.obj (.cons "assetId" (.num 42)
        (.cons "assetVersionNumber" (.num 1) .nil))) .nil))

/-- A poll body in the shape the source actually parses. -/
def pollSourceShapeBody : Json :=
  .obj (.cons "status" (.str "inreview")
    (.cons "result"
      (.obj (.cons "status" (.str "Success")
        (.cons "assetId" (.num 42)
          (.cons "assetVersionNumber" (.num 1) .nil)))) .nil))

/-- A web environment whose create succeeds and whose status GET returns a
body of the claimed done/response shape, not yet done. -/
def envNotDone : WebEnv :=
  { createResponse := { status := 200, body := createOkBody }
    statusResponse := { status := 200, body := pollNotDoneBody } }

/-- A web environment whose status GET returns a body of the claimed
done/response shape, done with a success payload. -/
def envDone : WebEnv :=
  { createResponse := { status := 200, body := createOkBody }
    statusResponse := { status := 200, body := pollDoneBody } }

/-- A web environment whose status GET returns the source-parseable shape. -/
def envSourceShape : WebEnv :=
  { createResponse := { status := 200, body := createOkBody }
    statusResponse := { status := 200, body := pollSourceShapeBody } }

/-- A web environment whose create succeeds and whose status GET fails with
HTTP 500. -/
def envPollHttpError : WebEnv :=
  { createResponse := { status := 200, body := createOkBody }
    statusResponse := { status := 500, body := .obj (.cons "message" (.str "boom") .nil) } }

/-- A combined environment whose every session attempt is moderated. -/
def envAllModerated : Env :=
  { web := envSourceShape, session := fun _ => .moderated }

/-- Sample raw image bytes (a PNG magic prefix). -/
def sampleImage : List Nat := [137, 80, 78, 71]

/-- The spec's scenario-5 raster: one opaque red pixel next to one fully
transparent pixel. -/
def img0 : Image :=
  { width := 2, height := 1
    pixels := [{ r := 255, g := 0, b := 0, a := 255 },
               { r := 0, g := 0, b := 0, a := 0 }] }

/-! Theorems for the claims. -/

/-- The wrapper `upload_asset` issues exactly the requests `upload_asset_raw`
issues: the event traces coincide. -/
theorem upload_asset_trace_eq_raw (env : WebEnv) (key : String)
    (image : List Nat) (data : AssetUploadData) :
    (upload_asset env key image data).2 = (upload_asset_raw env key image data).2 := by
  unfold upload_asset
  generalize upload_asset_raw env key image data = u
  obtain ⟨res, ev⟩ := u
  cases res with
  | ok raw =>
      obtain ⟨rst, ⟨st2, aid, ver⟩⟩ := raw
      cases st2
      rfl
  | error e => rfl

/-- The raw web flow makes no sleep and at most one status GET, whatever the
environment answers. -/
theorem upload_asset_raw_single_get (env : WebEnv) (key : String)
    (image : List Nat) (data : AssetUploadData) :
    (upload_asset_raw env key image data).2.filter Event.isSleep = [] ∧
    (upload_asset_raw env key image data).2.countP Event.isGet ≤ 1 := by
  unfold upload_asset_raw
  by_cases hk : isValidHeaderValue key = true <;>
  by_cases hc : isSuccessStatus env.createResponse.status = true <;>
  cases hp : parseRawUploadResponse env.createResponse.body <;>
  by_cases hs : isSuccessStatus env.statusResponse.status = true <;>
  cases hq : parseRawStatusResponse env.statusResponse.body <;>
  simp [hk, hc, hp, hs, hq, Event.isSleep, Event.isGet,
    List.countP_cons, List.countP_nil]

/-- The raw web flow never produces an `ApiError` value. -/
theorem upload_asset_raw_no_api_error (env : WebEnv) (key : String)
    (image : List Nat) (data : AssetUploadData) (m : String) :
    (upload_asset_raw env key image data).1 ≠ .error (.ApiError m) := by
  unfold upload_asset_raw
  by_cases hk : isValidHeaderValue key = true <;>
  by_cases hc : isSuccessStatus env.createResponse.status = true <;>
  cases hp : parseRawUploadResponse env.createResponse.body <;>
  by_cases hs : isSuccessStatus env.statusResponse.status = true <;>
  cases hq : parseRawStatusResponse env.statusResponse.body <;>
  simp [hk, hc, hp, hs, hq]

/-- The wrapped web flow never produces an `ApiError` value either: a parsed
status response always carries the one `Success` variant, so the wrapper's
error is always the raw flow's error. -/
theorem upload_asset_no_api_error (env : WebEnv) (key : String)
    (image : List Nat) (data : AssetUploadData) (m : String) :
    (upload_asset env key image data).1 ≠ .error (.ApiError m) := by
  have h := upload_asset_raw_no_api_error env key image data m
  unfold upload_asset
  generalize upload_asset_raw env key image data = u at h ⊢
  obtain ⟨res, ev⟩ := u
  cases res with
  | ok raw =>
      obtain ⟨rst, ⟨st2, aid, ver⟩⟩ := raw
      cases st2
      simp
  | error e => simpa using h

/-- C8: the Debug rendering of the cloud driver is independent of the API
key - for any two keys the formatted output is the same string, the constant
"RobloxApiClient", so no part of the credential's plaintext can flow into
it. -/
theorem C8_debug_independent_of_key (k k' : String) :
    debugFmt (RobloxApiClient.new k) = debugFmt (RobloxApiClient.new k') ∧
    debugFmt (RobloxApiClient.new k) = "RobloxApiClient" :=
  ⟨rfl, rfl⟩

/-- C9: parsing a creator-type string succeeds exactly on "user", "User"
(giving User) and "group", "Group" (giving Group), and fails on every other
string. -/
theorem C9_creator_type_parse (s : String) :
    (creatorTypeFromStr s = .ok .User ↔ (s = "user" ∨ s = "User")) ∧
    (creatorTypeFromStr s = .ok .Group ↔ (s = "group" ∨ s = "Group")) ∧
    (s ≠ "user" → s ≠ "User" → s ≠ "group" → s ≠ "Group" →
      creatorTypeFromStr s = .error {}) := by
  unfold creatorTypeFromStr
  refine ⟨?_, ?_, ?_⟩ <;> split_ifs <;> simp_all

/-- C9 witness: the uppercase forms "USER" and "GROUP" are rejected, the
exact lowercase and capitalized forms are accepted. -/
theorem C9_creator_type_parse_witness :
    creatorTypeFromStr "USER" = .error {} ∧
    creatorTypeFromStr "GROUP" = .error {} ∧
    creatorTypeFromStr "user" = .ok .User ∧
    creatorTypeFromStr "Group" = .ok .Group :=
  ⟨(C9_creator_type_parse "USER").2.2 (by decide) (by decide) (by decide) (by decide),
   (C9_creator_type_parse "GROUP").2.2 (by decide) (by decide) (by decide) (by decide),
   (C9_creator_type_parse "user").1.mpr (Or.inl rfl),
   (C9_creator_type_parse "Group").2.1.mpr (Or.inr rfl)⟩

/-- C10: with an API-key credential (the Web variant) the moderation-retry
entry point is the same function as the plain upload - the dispatch arms are
identical code, so the results and the event traces agree for every
environment, key and metadata. -/
theorem C10_web_retry_equals_plain (env : Env) (c : RobloxApiClient)
    (image : List Nat) (data : ImageData) :
    ApiClient.uploadAssetWithModerationRetry env (.Web c) image data =
      ApiClient.uploadAsset env (.Web c) image data :=
  rfl

/-- C4 counterexample: with no API key, no explicit cookie and nothing from
environment discovery, the resolver does not fail with a MissingCredential
error value - it panics (Rust `expect`) with the message "no auth cookie
found"; the embedded `RobloxApiError` enum of src/api/errors.rs has no
missing-credential variant at all. -/
theorem C4_no_credential_panics :
    resolveClient { api_key := none, cookie := none } none =
      .aborted "no auth cookie found" :=
  rfl

/-- C4 as amended: an API key always wins (even with a cookie configured),
otherwise the explicit cookie, otherwise the discovered cookie; with none of
the three the resolver panics with "no auth cookie found" instead of
returning a MissingCredential error. -/
theorem C4_resolver_order (options : GlobalOptions) (envCookie : Option String) :
    (∀ k, options.api_key = some k →
      resolveClient options envCookie = .client (.Web (RobloxApiClient.new k))) ∧
    (options.api_key = none → ∀ c, options.cookie = some c →
      resolveClient options envCookie = .client (.Cookie { auth_token := c })) ∧
    (options.api_key = none → options.cookie = none → ∀ c, envCookie = some c →
      resolveClient options envCookie = .client (.Cookie { auth_token := c })) ∧
    (options.api_key = none → options.cookie = none → envCookie = none →
      resolveClient options envCookie = .aborted "no auth cookie found") := by
  obtain ⟨ak, ck⟩ := options
  refine ⟨?_, ?_, ?_, ?_⟩ <;>
    cases ak <;> cases ck <;> cases envCookie <;> intros <;>
      simp_all [resolveClient, Option.orElse]

/-- C4 witness: the theorem applied at concrete configurations - a key
present together with a cookie resolves to the Web client of that key; a
bare environment cookie resolves to a Cookie client; nothing resolves to the
panic. -/
theorem C4_resolver_order_witness :
    resolveClient { api_key := some "k", cookie := some "c" } none =
      .client (.Web (RobloxApiClient.new "k")) ∧
    resolveClient { api_key := none, cookie := none } (some "e") =
      .client (.Cookie { auth_token := "e" }) ∧
    resolveClient { api_key := none, cookie := some "c" } none =
      .client (.Cookie { auth_token := "c" }) :=
  ⟨(C4_resolver_order { api_key := some "k", cookie := some "c" } none).1 "k" rfl,
   (C4_resolver_order { api_key := none, cookie := none } (some "e")).2.2.1
     rfl rfl "e" rfl,
   (C4_resolver_order { api_key := none, cookie := some "c" } none).2.1
     rfl "c" rfl⟩

/-- C3 counterexample: at a concrete metadata record the multipart `request`
part the source serializes is not the document the claim enumerates - the
source writes targetType / assetName / assetDescription / creatorType /
creatorId nested under creationContext, not assetType / displayName /
description / userId. -/
theorem C3_request_part_differs :
    serializeAssetUploadData (assetUploadDataFrom sampleData) ≠
      specRequestPart sampleData := by
  decide

/-- C3 as amended: for every metadata record, the `request` part is exactly
the compact rendering of the source-shaped document - a creationContext
object holding targetType "Decal", assetName, assetDescription, assetId null
and a creator object keyed creatorType / creatorId - byte for byte. -/
theorem C3_request_part_shape (data : ImageData) :
    serializeAssetUploadData (assetUploadDataFrom data) =
      renderJson (assetUploadDoc (assetUploadDataFrom data)) := by
  obtain ⟨nm, ds, ⟨ct, cid⟩⟩ := data
  have h1 : ("\x7b\"creationContext\":\x7b\"targetType\":" : String)
      = "\x7b" ++ (jsonQuote "creationContext" ++ (":"
        ++ ("\x7b" ++ (jsonQuote "targetType" ++ ":")))) := rfl
  have h2 : (",\"assetName\":" : String)
      = "," ++ (jsonQuote "assetName" ++ ":") := rfl
  have h3 : (",\"assetDescription\":" : String)
      = "," ++ (jsonQuote "assetDescription" ++ ":") := rfl
  have h4 : (",\"assetId\":" : String)
      = "," ++ (jsonQuote "assetId" ++ ":") := rfl
  have h5 : (",\"creator\":" : String)
      = "," ++ (jsonQuote "creator" ++ ":") := rfl
  have h6 : ("\x7b\"creatorType\":" : String)
      = "\x7b" ++ (jsonQuote "creatorType" ++ ":") := rfl
  have h7 : (",\"creatorId\":" : String)
      = "," ++ (jsonQuote "creatorId" ++ ":") := rfl
  have h8 : ("\x7d\x7d" : String) = "\x7d" ++ "\x7d" := rfl
  simp only [serializeAssetUploadData, assetUploadDataFrom, serializeCreator,
    assetUploadDoc, renderJson, renderFields, targetTypeName,
    h1, h2, h3, h4, h5, h6, h7, h8, String.append_assoc]

/-- C1 counterexample: the create request succeeds with an operation path
and the status endpoint answers the done=false body of the claim. The claim
requires the driver to wait 500 ms and poll again; the source instead fails
immediately with BadResponseJson (the done/response shape does not parse),
and its whole run is one POST followed by one GET - no sleep, no second
poll, no timeout tracking. -/
theorem C1_not_done_fails_without_retry :
    upload_asset envNotDone "k" sampleImage (assetUploadDataFrom sampleData) =
      (.error (.BadResponseJson pollNotDoneBody),
       [.post "https://apis.roblox.com/assets/v1/assets" sampleImage
          (serializeAssetUploadData (assetUploadDataFrom sampleData)),
        .get "https://apis.roblox.com/assets/v1/operations/op1"]) :=
  rfl

/-- C1 as amended: after the create request, `upload_asset` issues at most
one immediate status GET. For every environment, key and payload its trace
contains no sleep at all (hence no 500 ms / x2 / 4 s backoff) and at most
one GET, and its result is never an `ApiError` (hence never
ApiError "timeout"): there is no polling loop and no 60 s deadline. -/
theorem C1_single_immediate_status_get (env : WebEnv) (key : String)
    (image : List Nat) (data : AssetUploadData) :
    (upload_asset env key image data).2.filter Event.isSleep = [] ∧
    (upload_asset env key image data).2.countP Event.isGet ≤ 1 ∧
    ∀ m : String, (upload_asset env key image data).1 ≠ .error (.ApiError m) := by
  refine ⟨?_, ?_, fun m => upload_asset_no_api_error env key image data m⟩
  · rw [upload_asset_trace_eq_raw]
    exact (upload_asset_raw_single_get env key image data).1
  · rw [upload_asset_trace_eq_raw]
    exact (upload_asset_raw_single_get env key image data).2

/-- C2 counterexample: a poll body of exactly the claimed shape - done=true
with response.assetId present - does not make `upload_asset` return the
asset id: the source parses the status body as status/result, that
parse fails on the done/response shape, and the run fails BadResponseJson. -/
theorem C2_done_shape_is_rejected :
    upload_asset envDone "k" sampleImage (assetUploadDataFrom sampleData) =
      (.error (.BadResponseJson pollDoneBody),
       [.post "https://apis.roblox.com/assets/v1/assets" sampleImage
          (serializeAssetUploadData (assetUploadDataFrom sampleData)),
        .get "https://apis.roblox.com/assets/v1/operations/op1"]) :=
  rfl

/-- C2 as amended: the status body is parsed as the source's
status/result shape - a string `status` and a `result` object
holding status ("Success" is its only parseable value), assetId and
assetVersionNumber. When the create leg succeeded and the status GET is 2xx:
a body that parses makes `upload_asset` return the parsed assetId and
version; a body that does not parse fails BadResponseJson (the source's
ApiError arm for a non-Success result is dead code). -/
theorem C2_status_shape_policy (env : WebEnv) (key : String)
    (image : List Nat) (data : AssetUploadData)
    (up : RawUploadResponse) (r : RawStatusResponse)
    (hk : isValidHeaderValue key = true)
    (hc : isSuccessStatus env.createResponse.status = true)
    (hp : parseRawUploadResponse env.createResponse.body = some up)
    (hs : isSuccessStatus env.statusResponse.status = true) :
    (parseRawStatusResponse env.statusResponse.body = some r →
      (upload_asset env key image data).1 =
        .ok { asset_id := r.result.assetId
              asset_version_number := r.result.assetVersionNumber }) ∧
    (parseRawStatusResponse env.statusResponse.body = none →
      (upload_asset env key image data).1 =
        .error (.BadResponseJson env.statusResponse.body)) := by
  obtain ⟨rst, ⟨st2, aid, ver⟩⟩ := r
  cases st2
  constructor <;> intro hq <;>
    simp [upload_asset, upload_asset_raw, hk, hc, hp, hs, hq]

/-- C2 witness: with a status body in the source's shape the driver returns
asset id 42 and version 1. -/
theorem C2_status_shape_policy_witness :
    (upload_asset envSourceShape "k" sampleImage (assetUploadDataFrom sampleData)).1 =
      .ok { asset_id := 42, asset_version_number := 1 } :=
  (C2_status_shape_policy envSourceShape "k" sampleImage (assetUploadDataFrom sampleData)
    { path := "operations/op1" }
    { status := "inreview"
      result := { status := .Success, assetId := 42, assetVersionNumber := 1 } }
    rfl rfl rfl rfl).1 rfl

/-- C5: evaluation at the failing input. The create succeeds with HTTP 200,
the status GET fails with HTTP 500 and body (message "boom"); the source's
non-2xx poll arm builds ResponseError from `response.status()` - the CREATE
response's status - so the error carries 200, not the poll's 500, along with
the poll body. The claim (and the error message's own wording, "Roblox API
returned HTTP status") requires the poll response's status there. -/
theorem C5_poll_error_keeps_create_status :
    upload_asset envPollHttpError "k" sampleImage (assetUploadDataFrom sampleData) =
      (.error (.ResponseError 200 (.obj (.cons "message" (.str "boom") .nil))),
       [.post "https://apis.roblox.com/assets/v1/assets" sampleImage
          (serializeAssetUploadData (assetUploadDataFrom sampleData)),
        .get "https://apis.roblox.com/assets/v1/operations/op1"]) :=
  rfl

/-- C6: the moderation-retry policy lives only in the dedicated entry point.
The plain `upload_asset` on a Cookie client performs exactly one session
attempt (its whole trace is that attempt - no sleep, no retry), whatever the
moderation verdicts are; `upload_asset_with_moderation_retry` on an
environment that moderates every attempt performs the five attempts with the
four 5-second sleeps between them and fails ApiError "moderation". -/
theorem C6_retry_is_opt_in (env : Env) (c : CookieApiClient)
    (image : List Nat) (data : ImageData) :
    (ApiClient.uploadAsset env (.Cookie c) image data).2 = [.sessionAttempt 0] ∧
    ((∀ i, i ≤ 4 → env.session i = .moderated) →
      ApiClient.uploadAssetWithModerationRetry env (.Cookie c) image data =
        (.error (.ApiError "moderation"),
         [.sessionAttempt 0, .sleep 5000, .sessionAttempt 1, .sleep 5000,
          .sessionAttempt 2, .sleep 5000, .sessionAttempt 3, .sleep 5000,
          .sessionAttempt 4])) := by
  refine ⟨rfl, fun h => ?_⟩
  simp [ApiClient.uploadAssetWithModerationRetry,
    cookieUploadImageWithModerationRetry, cookieRetryLoop,
    h 0 (by norm_num), h 1 (by norm_num), h 2 (by norm_num),
    h 3 (by norm_num), h 4 (by norm_num)]

/-- C6 witness: on the all-moderated environment the retry entry point runs
its five attempts and fails ApiError "moderation", while the plain upload's
trace stays a single attempt. -/
theorem C6_retry_is_opt_in_witness :
    ApiClient.uploadAssetWithModerationRetry envAllModerated
        (.Cookie { auth_token := "c" }) sampleImage sampleData =
      (.error (.ApiError "moderation"),
       [.sessionAttempt 0, .sleep 5000, .sessionAttempt 1, .sleep 5000,
        .sessionAttempt 2, .sleep 5000, .sessionAttempt 3, .sleep 5000,
        .sessionAttempt 4]) ∧
    (ApiClient.uploadAsset envAllModerated
        (.Cookie { auth_token := "c" }) sampleImage sampleData).2 =
      [.sessionAttempt 0] :=
  ⟨(C6_retry_is_opt_in envAllModerated { auth_token := "c" } sampleImage sampleData).2
     (fun _ _ => rfl),
   (C6_retry_is_opt_in envAllModerated { auth_token := "c" } sampleImage sampleData).1⟩

/-- Reflexivity of the bleed frame invariant. -/
theorem agreesWith_rfl (px : List Rgba) : AgreesWith px px :=
  ⟨rfl, fun _ => ⟨rfl, fun _ hp _ => hp⟩⟩

/-- Writing a source pixel's RGB over a pixel whose current alpha is 0
preserves the frame invariant: the written pixel keeps its alpha, and a
pixel that was originally non-transparent cannot be the target. -/
theorem agreesWith_set (orig px : List Rgba) (n : Nat) (p src : Rgba)
    (hA : AgreesWith orig px) (hn : px[n]? = some p) (ha : p.a = 0) :
    AgreesWith orig (px.set n (writeRgb p src)) := by
  obtain ⟨hlen, hpt⟩ := hA
  have hlt : n < px.length := by
    rcases List.getElem?_eq_some_iff.mp hn with ⟨hfound, _⟩
    exact hfound
  refine ⟨by simp [hlen], fun i => ?_⟩
  by_cases hin : n = i
  · subst hin
    have halpha := (hpt n).1
    rw [hn] at halpha
    constructor
    · rw [List.getElem?_set_self hlt]
      simp only [Option.map_some'] at halpha ⊢
      rw [← halpha]
      rfl
    · intro q hq hqa
      rw [hq] at halpha
      simp only [Option.map_some', Option.some.injEq] at halpha
      exact absurd (halpha ▸ ha) hqa
  · constructor
    · rw [List.getElem?_set_ne hin]
      exact (hpt i).1
    · intro q hq hqa
      rw [List.getElem?_set_ne hin]
      exact (hpt i).2 q hq hqa

/-- One neighbor step of the flood preserves the frame invariant. -/
theorem agreesWith_processNeighbor (orig : List Rgba) (src : Rgba)
    (st : List Rgba × List Bool × List Nat) (n : Nat)
    (hA : AgreesWith orig st.1) :
    AgreesWith orig (processNeighbor src st n).1 := by
  unfold processNeighbor
  split
  next p hpx hvis =>
    split
    next ha => exact agreesWith_set orig st.1 n p src hA hpx ha
    next => exact hA
  next => exact hA

/-- The fold over a dequeued pixel's neighbor list preserves the frame
invariant. -/
theorem agreesWith_foldl (orig : List Rgba) (src : Rgba) (ns : List Nat)
    (st : List Rgba × List Bool × List Nat) (hA : AgreesWith orig st.1) :
    AgreesWith orig ((ns.foldl (processNeighbor src) st)).1 := by
  induction ns generalizing st with
  | nil => exact hA
  | cons n rest ih => exact ih _ (agreesWith_processNeighbor orig src st n hA)

/-- The whole flood preserves the frame invariant, for any fuel, queue and
flag state. -/
theorem agreesWith_bleedLoop (w h : Nat) (orig : List Rgba) (fuel : Nat)
    (q : List Nat) (px : List Rgba) (vis : List Bool)
    (hA : AgreesWith orig px) :
    AgreesWith orig (bleedLoop w h fuel q px vis) := by
  induction fuel generalizing q px vis with
  | zero => exact hA
  | succ f ih =>
      cases q with
      | nil => exact hA
      | cons i rest =>
          cases hpx : px[i]? with
          | some src =>
              simp only [bleedLoop, hpx]
              exact ih _ _ _ (agreesWith_foldl orig src _ (px, vis, rest) hA)
          | none =>
              simp only [bleedLoop, hpx]
              exact ih _ _ _ hA

/-- C7: the alpha-bleed transform preserves the width, the height, the pixel
count and every pixel's alpha value, and leaves every pixel whose alpha is
positive completely unchanged - only the RGB of alpha-0 pixels can move. -/
theorem C7_alpha_bleed_frame (img : Image) :
    (alpha_bleed img).width = img.width ∧
    (alpha_bleed img).height = img.height ∧
    (alpha_bleed img).pixels.length = img.pixels.length ∧
    (∀ i : Nat,
      (alpha_bleed img).pixels[i]?.map Rgba.a = img.pixels[i]?.map Rgba.a) ∧
    (∀ i : Nat, ∀ p : Rgba, img.pixels[i]? = some p → 0 < p.a →
      (alpha_bleed img).pixels[i]? = some p) := by
  have hA := agreesWith_bleedLoop img.width img.height img.pixels
    img.pixels.length (seedQueue img.pixels) img.pixels
    (List.replicate img.pixels.length false) (agreesWith_rfl img.pixels)
  exact ⟨rfl, rfl, hA.1, fun i => (hA.2 i).1,
    fun i p hp hpa => (hA.2 i).2 p hp (Nat.pos_iff_ne_zero.mp hpa)⟩

/-- C7 witness: on the spec's scenario-5 raster the theorem yields that the
dimensions are kept, the transparent pixel keeps alpha 0 and the opaque red
pixel is untouched. -/
theorem C7_alpha_bleed_frame_witness :
    (alpha_bleed img0).width = 2 ∧
    (alpha_bleed img0).pixels[1]?.map Rgba.a = some 0 ∧
    (alpha_bleed img0).pixels[0]? = some { r := 255, g := 0, b := 0, a := 255 } :=
  ⟨(C7_alpha_bleed_frame img0).1,
   ((C7_alpha_bleed_frame img0).2.2.2.1 1).trans rfl,
   (C7_alpha_bleed_frame img0).2.2.2.2 0 { r := 255, g := 0, b := 0, a := 255 }
     rfl (by decide)⟩

end Tarmac
